import Mathlib

set_option linter.unusedVariables false

/-!
Verification of the heart-physics demo (three script variants).

The repository contains three near-identical browser scripts driving a
cannon-es rigid-body world synced to a three.js scene:

* the free-fall "orbit" variant (src/unnamed/part_000): five plane walls
  recomputed from the camera frustum, gravity overwritten from tilt,
  a per-frame z-velocity nudge;
* the side-view "box" variant (first document of src/vd-2026.js): fixed
  plane walls, a tilt handler that writes only gravity.x and gravity.y;
* the top-down "well" variant (second document of src/vd-2026.js): four
  static box walls built from the screen bounds, a clamped tilt handler.

Numeric state is embedded over the rationals; rotations at multiples of
a right angle are embedded over the reals where needed.
-/

/-- A 3-component vector (the cannon-es Vec3 as used by the scripts),
over the rationals. -/
structure Vec3 where
  x : ℚ
  y : ℚ
  z : ℚ
deriving DecidableEq, Repr

/-- A quaternion value copied between the physics body and the render
mesh, over the rationals. -/
structure Quat4 where
  x : ℚ
  y : ℚ
  z : ℚ
  w : ℚ
deriving DecidableEq, Repr

/-- A deviceorientation reading: beta and gamma may each be absent, in
which case the scripts substitute 0 via the expression (e.beta || 0). -/
structure Reading where
  beta : Option ℚ
  gamma : Option ℚ
deriving DecidableEq, Repr

/-- Value of the beta angle with the JS default (e.beta || 0). -/
def Reading.betaVal (r : Reading) : ℚ := r.beta.getD 0

/-- Value of the gamma angle with the JS default (e.gamma || 0). -/
def Reading.gammaVal (r : Reading) : ℚ := r.gamma.getD 0

/-- A 3-component vector over the reals, for wall orientation geometry. -/
structure VecR where
  x : ℝ
  y : ℝ
  z : ℝ

/-- A quaternion over the reals (the cannon-es Quaternion as used for the
wall bodies). -/
structure QuatR where
  x : ℝ
  y : ℝ
  z : ℝ
  w : ℝ

/-- Modelled from the spec: the quaternion produced by the physics
engine's setFromEuler with its default XYZ order (the cannon-es engine is
a dependency, not under src/); this is the standard Euler-to-quaternion
conversion with half angles. -/
noncomputable def setFromEuler (x y z : ℝ) : QuatR :=
  ⟨Real.sin (x/2) * Real.cos (y/2) * Real.cos (z/2) +
     Real.cos (x/2) * Real.sin (y/2) * Real.sin (z/2),
   Real.cos (x/2) * Real.sin (y/2) * Real.cos (z/2) -
     Real.sin (x/2) * Real.cos (y/2) * Real.sin (z/2),
   Real.cos (x/2) * Real.cos (y/2) * Real.sin (z/2) +
     Real.sin (x/2) * Real.sin (y/2) * Real.cos (z/2),
   Real.cos (x/2) * Real.cos (y/2) * Real.cos (z/2) -
     Real.sin (x/2) * Real.sin (y/2) * Real.sin (z/2)⟩

/-- Modelled from the spec: rotation of a vector by a quaternion (the
physics engine's vmult, computed as q times v times the conjugate of q). -/
def QuatR.vmult (q : QuatR) (v : VecR) : VecR :=
  let ix := q.w * v.x + q.y * v.z - q.z * v.y
  let iy := q.w * v.y + q.z * v.x - q.x * v.z
  let iz := q.w * v.z + q.x * v.y - q.y * v.x
  let iw := -q.x * v.x - q.y * v.y - q.z * v.z
  ⟨ix * q.w + iw * (-q.x) + iy * (-q.z) - iz * (-q.y),
   iy * q.w + iw * (-q.y) + iz * (-q.x) - ix * (-q.z),
   iz * q.w + iw * (-q.z) + ix * (-q.y) - iy * (-q.x)⟩

/-- Modelled from the spec: the face normal of a plane body is its local
+Z axis rotated by the body quaternion; a plane blocks motion toward its
back side, so only a wall whose normal has a negative z component can act
as a +Z boundary. -/
noncomputable def planeNormal (q : QuatR) : VecR := q.vmult ⟨0, 0, 1⟩

namespace Orbit

/-- Initial world gravity of the orbit variant:
world.gravity.set(0, -30, 0) (part_000 line 23). -/
def initGravity : Vec3 := ⟨0, -30, 0⟩

/-- Gravity multiplier of the orbit variant's tilt handler
(const strength = 80, part_000 line 124). -/
def strength : ℚ := 80

/-- The deviceorientation handler installed by enableMotion in the orbit
variant (part_000 lines 120-135): xg = (e.gamma||0)/45, yg = (e.beta||0)/45,
then world.gravity.set(xg*strength, -yg*strength, 0). The previous gravity
value g is taken as an argument to express the overwrite semantics. -/
def enableMotionHandler (g : Vec3) (r : Reading) : Vec3 :=
  let xg := r.gammaVal / 45
  let yg := r.betaVal / 45
  ⟨xg * strength, -yg * strength, 0⟩

/-- The five wall quaternions assigned by updateBoundaries (part_000
lines 67-85), in the order right, left, top, bottom, back; these are all
the static boundary bodies the orbit variant ever creates (createWall is
called exactly for left, right, top, bottom, back; there is no front
wall). -/
noncomputable def wallQuaternions : List QuatR :=
  [setFromEuler 0 (-(Real.pi / 2)) 0,
   setFromEuler 0 (Real.pi / 2) 0,
   setFromEuler (Real.pi / 2) 0 0,
   setFromEuler (-(Real.pi / 2)) 0 0,
   setFromEuler 0 0 0]

/-- The dynamic heart body state read and written by the animate loop. -/
structure HeartState where
  position : Vec3
  velocity : Vec3
  quaternion : Quat4
deriving DecidableEq, Repr

/-- The render mesh pose written by the animate loop. -/
structure MeshPose where
  position : Vec3
  quaternion : Quat4
deriving DecidableEq, Repr

/-- The part of animate after world.step when both the render mesh and
the physics body exist (part_000 lines 168-176): copy the body position
and quaternion onto the mesh, then decrement the body's z velocity by 1
when its z position exceeds 20, and increment it by 1 when its z position
is below -20. -/
def syncAndNudge (mesh : MeshPose) (body : HeartState) : MeshPose × HeartState :=
  let vz1 := if 20 < body.position.z then body.velocity.z - 1 else body.velocity.z
  let vz2 := if body.position.z < -20 then vz1 + 1 else vz1
  (⟨body.position, body.quaternion⟩,
   ⟨body.position, ⟨body.velocity.x, body.velocity.y, vz2⟩, body.quaternion⟩)

end Orbit

namespace BoxVar

/-- Initial world gravity of the box variant:
world.gravity.set(0, -20, 0) (vd-2026.js line 12). -/
def initGravity : Vec3 := ⟨0, -20, 0⟩

/-- Maximum gravity force of the box variant's tilt handler
(const gravityStrength = 30, vd-2026.js line 119). -/
def gravityStrength : ℚ := 30

/-- The deviceorientation handler installed by enableMotion in the box
variant (vd-2026.js lines 115-137): xTilt = (e.gamma||0)/45,
yTilt = (e.beta||0)/45, then world.gravity.x = xTilt*gravityStrength and
world.gravity.y = -20 + (Math.abs(yTilt) * -10); gravity.z is never
assigned (the assignments to z in the source are commented out), so the
z component of the previous gravity value g passes through. -/
def enableMotionHandler (g : Vec3) (r : Reading) : Vec3 :=
  let xTilt := r.gammaVal / 45
  let yTilt := r.betaVal / 45
  ⟨xTilt * gravityStrength, -20 + |yTilt| * (-10), g.z⟩

end BoxVar

namespace Well

/-- CONFIG.cameraHeight (vd-2026.js line 187). -/
def cameraHeight : ℚ := 30

/-- CONFIG.gravityScale (vd-2026.js line 189). -/
def gravityScale : ℚ := 20

/-- CONFIG.wallThickness (vd-2026.js line 191). -/
def wallThickness : ℚ := 2

/-- The wallHeight constant inside createWalls (vd-2026.js line 301). -/
def wallHeight : ℚ := 10

/-- The clamp of one tilt axis in handleDeviceOrientation
(vd-2026.js lines 424-426): Math.max(-maxTilt, Math.min(maxTilt, v))
with maxTilt = 45. -/
def clampTilt (v : ℚ) : ℚ := max (-45) (min 45 v)

/-- The deviceorientation handler of the well variant
(handleDeviceOrientation, vd-2026.js lines 410-466): if the heart body
does not exist yet the handler returns at once and the world gravity g is
left as it was; otherwise each axis is clamped to plus or minus 45,
normalized by 45, scaled by CONFIG.gravityScale for the x and z axes, and
the y component is held at the constant -15; the result overwrites the
whole gravity vector via world.gravity.set(gravityX, gravityY, gravityZ). -/
def handleDeviceOrientation (heartBodyExists : Bool) (g : Vec3) (r : Reading) : Vec3 :=
  if !heartBodyExists then g
  else
    let xRatio := clampTilt r.gammaVal / 45
    let zRatio := clampTilt r.betaVal / 45
    let gravityY : ℚ := -15
    ⟨xRatio * gravityScale, gravityY, zRatio * gravityScale⟩

/-- Screen bounds in world units (the well variant's screenBounds). -/
structure ScreenBounds where
  top : ℚ
  bottom : ℚ
  left : ℚ
  right : ℚ
deriving DecidableEq, Repr

/-- The function calculateScreenBounds (vd-2026.js lines 262-278):
visibleHeight = 2 * tan(vFOV/2) * cameraHeight and
visibleWidth = visibleHeight * aspect, with
top = -visibleHeight/2, bottom = visibleHeight/2, left = -visibleWidth/2,
right = visibleWidth/2. The factor tanHalfFov stands for the value of
Math.tan(vFOV/2), an irrational constant of the running program kept
abstract here. -/
def calculateScreenBounds (tanHalfFov aspect : ℚ) : ScreenBounds :=
  ⟨-(2 * tanHalfFov * cameraHeight) / 2,
   2 * tanHalfFov * cameraHeight / 2,
   -(2 * tanHalfFov * cameraHeight * aspect) / 2,
   2 * tanHalfFov * cameraHeight * aspect / 2⟩

/-- A static wall box body: center position and half extents. -/
structure WallBox where
  pos : Vec3
  halfExtents : Vec3
deriving DecidableEq, Repr

/-- The function createWalls (vd-2026.js lines 299-342): four static
boxes around the given screen bounds, in the source order top (-Z),
bottom (+Z), left (-X), right (+X); each CANNON.Box takes half extents,
so each size component is halved. -/
def createWalls (b : ScreenBounds) : List WallBox :=
  [⟨⟨0, wallHeight / 2, b.top - wallThickness / 2⟩,
    ⟨(b.right * 2 + 10) / 2, wallHeight / 2, wallThickness / 2⟩⟩,
   ⟨⟨0, wallHeight / 2, b.bottom + wallThickness / 2⟩,
    ⟨(b.right * 2 + 10) / 2, wallHeight / 2, wallThickness / 2⟩⟩,
   ⟨⟨b.left - wallThickness / 2, wallHeight / 2, 0⟩,
    ⟨wallThickness / 2, wallHeight / 2, (b.bottom * 2 + 10) / 2⟩⟩,
   ⟨⟨b.right + wallThickness / 2, wallHeight / 2, 0⟩,
    ⟨wallThickness / 2, wallHeight / 2, (b.bottom * 2 + 10) / 2⟩⟩]

/-- The pieces of session state relevant to boundary placement in the
well variant. -/
structure WellState where
  aspect : ℚ
  screenBounds : ScreenBounds
  walls : List WallBox
deriving DecidableEq, Repr

/-- The boundary-related part of init (vd-2026.js lines 248-251):
calculateScreenBounds, then createWalls from the fresh bounds. -/
def initBoundaries (tanHalfFov aspect : ℚ) : WellState :=
  ⟨aspect, calculateScreenBounds tanHalfFov aspect,
   createWalls (calculateScreenBounds tanHalfFov aspect)⟩

/-- The function onWindowResize (vd-2026.js lines 503-508): updates the
camera aspect, recomputes screenBounds via calculateScreenBounds, resizes
the renderer, but does not move, rebuild, or otherwise touch the wall
bodies; createWalls is called only from init. -/
def onWindowResize (tanHalfFov newAspect : ℚ) (s : WellState) : WellState :=
  ⟨newAspect, calculateScreenBounds tanHalfFov newAspect, s.walls⟩

end Well

namespace Hull

/-- Modelled from the spec: the Convex Hull Builder is described by the
spec but its code is not under src/. Quantization of a vertex to a
fixed-precision grid key with tolerance 1e-3 world units: each coordinate
is rounded to the nearest multiple of 1/1000. -/
def quantKey (v : Vec3) : ℤ × ℤ × ℤ :=
  (round (1000 * v.x), round (1000 * v.y), round (1000 * v.z))

/-- Modelled from the spec: one step of the vertex deduplication pass.
The accumulator carries the list of grid keys already assigned a unique
index (in first-seen order), the corresponding unique vertices, and the
remap from old vertex index to unique index built so far. A first-seen
key receives the next fresh index; a repeated key is remapped to the
index of its first occurrence. -/
def dedupStep (acc : List (ℤ × ℤ × ℤ) × List Vec3 × List Nat) (v : Vec3) :
    List (ℤ × ℤ × ℤ) × List Vec3 × List Nat :=
  if quantKey v ∈ acc.1 then
    (acc.1, acc.2.1, acc.2.2 ++ [acc.1.indexOf (quantKey v)])
  else
    (acc.1 ++ [quantKey v], acc.2.1 ++ [v], acc.2.2 ++ [acc.1.length])

/-- Modelled from the spec: the full deduplication pass over the flat
vertex position list. -/
def dedupPass (positions : List Vec3) : List (ℤ × ℤ × ℤ) × List Vec3 × List Nat :=
  positions.foldl dedupStep ([], [], [])

/-- Consecutive index triples of a flat index list; a trailing rest of
fewer than three entries is ignored. -/
def triples : List Nat → List (Nat × Nat × Nat)
  | a :: b :: c :: rest => (a, b, c) :: triples rest
  | _ => []

/-- Modelled from the spec: the source triangles come from the index
buffer when present, else from consecutive vertex triples. -/
def sourceTriangles (vertexCount : Nat) (indices : Option (List Nat)) :
    List (Nat × Nat × Nat) :=
  match indices with
  | some is => triples is
  | none => triples (List.range vertexCount)

/-- The hull produced by the builder: deduplicated vertices and
triangular faces referencing unique vertex indices. -/
structure ConvexHullData where
  vertices : List Vec3
  faces : List (Nat × Nat × Nat)
deriving DecidableEq, Repr

/-- Modelled from the spec: the convex hull builder. Each source
triangle's corners are remapped through the deduplication remap and the
face is kept only when the three remapped indices are pairwise distinct;
degenerate faces are dropped silently. -/
def buildHull (positions : List Vec3) (indices : Option (List Nat)) : ConvexHullData :=
  let d := dedupPass positions
  let remap := d.2.2
  let tris := sourceTriangles positions.length indices
  let remapped := tris.map (fun t => (remap.getD t.1 0, remap.getD t.2.1 0, remap.getD t.2.2 0))
  ⟨d.2.1, remapped.filter (fun t => t.1 != t.2.1 && t.2.1 != t.2.2 && t.1 != t.2.2)⟩

/-- A small triangulated mesh with duplicate vertices: the corner at
(1,0,0) recurs as (1.0004,0,0) within the 1e-3 tolerance, the corner at
(0,1,0) recurs exactly, and a third triangle is degenerate because two of
its corners coincide. -/
def demoPositions : List Vec3 :=
  [⟨0, 0, 0⟩, ⟨1, 0, 0⟩, ⟨0, 1, 0⟩,
   ⟨10004/10000, 0, 0⟩, ⟨0, 1, 0⟩, ⟨1, 1, 0⟩,
   ⟨2, 2, 0⟩, ⟨2, 2, 0⟩, ⟨3, 3, 0⟩]

end Hull

namespace Stepping

/-- Modelled from the spec: a single free-flying dynamic body as advanced
by one fixed internal step of the Physics World (the cannon-es integrator
is a dependency, not under src/). -/
structure FreeBody where
  position : Vec3
  velocity : Vec3
deriving DecidableEq, Repr

/-- Modelled from the spec: one fixed internal step for a free body.
Gravity is applied as a uniform force mass times gravityVector before
integration, so the velocity gains gravity times dt; damping is a
per-step multiplicative decay damp of the velocity (for a fixed dt the
engine's decay factor per step is one constant, kept as a parameter);
the integrator then advances the position by the updated velocity
times dt. -/
def freeBodyStep (g : Vec3) (dt damp : ℚ) (b : FreeBody) : FreeBody :=
  let v : Vec3 := ⟨(b.velocity.x + g.x * dt) * damp,
                   (b.velocity.y + g.y * dt) * damp,
                   (b.velocity.z + g.z * dt) * damp⟩
  ⟨⟨b.position.x + v.x * dt, b.position.y + v.y * dt, b.position.z + v.z * dt⟩, v⟩

/-- The truncating remainder used by the accumulator update
(JavaScript a % b for the nonnegative values reached here). -/
def jsMod (a b : ℚ) : ℚ := a - b * ⌊a / b⌋

/-- Modelled from the spec: the catch-up loop inside the physics world's
step function (cannon-es, a dependency not under src/): while the time
accumulator holds at least one fixed increment dt and fewer than
maxSubSteps substeps have run, perform one internal step f and subtract
dt from the accumulator. The remaining fuel stands for maxSubSteps minus
the substeps already taken; the state is the pair of accumulator and
world state. -/
def substepLoop {σ : Type} (f : σ → σ) (dt : ℚ) : Nat → ℚ × σ → ℚ × σ
  | 0, p => p
  | n + 1, p => if dt ≤ p.1 then substepLoop f dt n (p.1 - dt, f p.2) else p

/-- Modelled from the spec: one call of the physics world's
step(dt, timeSinceLastCalled, maxSubSteps): add the elapsed real time to
the accumulator, run the bounded catch-up loop of fixed internal steps,
then reduce the accumulator modulo dt. -/
def stepCall {σ : Type} (f : σ → σ) (dt timeSinceLastCalled : ℚ) (maxSubSteps : Nat)
    (p : ℚ × σ) : ℚ × σ :=
  let q := substepLoop f dt maxSubSteps (p.1 + timeSinceLastCalled, p.2)
  (jsMod q.1 dt, q.2)

/-- A sequence of step calls across frame boundaries: each entry k of the
list is one frame whose elapsed real time is exactly k fixed increments,
so the frame asks the world for k fixed steps. -/
def runCalls {σ : Type} (f : σ → σ) (dt : ℚ) (maxSubSteps : Nat) (ks : List Nat)
    (p : ℚ × σ) : ℚ × σ :=
  ks.foldl (fun q k => stepCall f dt ((k : ℚ) * dt) maxSubSteps q) p

end Stepping

/-- For a rotation by the angle a about the y axis, the z component of
the rotated +Z axis is the cosine of a. -/
theorem planeNormal_euler_y (a : ℝ) :
    (planeNormal (setFromEuler 0 a 0)).z = Real.cos a := by
  have h : Real.cos a =
      Real.cos (a/2) * Real.cos (a/2) - Real.sin (a/2) * Real.sin (a/2) := by
    rw [← Real.cos_add]
    congr 1
    ring
  simp only [planeNormal, setFromEuler, QuatR.vmult, zero_div, Real.sin_zero, Real.cos_zero]
  ring_nf
  ring_nf at h
  linarith [h]

/-- For a rotation by the angle a about the x axis, the z component of
the rotated +Z axis is the cosine of a. -/
theorem planeNormal_euler_x (a : ℝ) :
    (planeNormal (setFromEuler a 0 0)).z = Real.cos a := by
  have h : Real.cos a =
      Real.cos (a/2) * Real.cos (a/2) - Real.sin (a/2) * Real.sin (a/2) := by
    rw [← Real.cos_add]
    congr 1
    ring
  simp only [planeNormal, setFromEuler, QuatR.vmult, zero_div, Real.sin_zero, Real.cos_zero]
  ring_nf
  ring_nf at h
  linarith [h]

/-- The deduplication fold keeps its key list duplicate-free, keeps one
unique vertex per key, and accumulates exactly the set of quantized keys
of the processed positions. -/
theorem dedupStep_foldl_invariant (l : List Vec3) :
    ∀ (keys : List (ℤ × ℤ × ℤ)) (verts : List Vec3) (remap : List Nat),
      keys.Nodup → verts.length = keys.length →
      (List.foldl Hull.dedupStep (keys, verts, remap) l).1.Nodup ∧
      (List.foldl Hull.dedupStep (keys, verts, remap) l).2.1.length =
        (List.foldl Hull.dedupStep (keys, verts, remap) l).1.length ∧
      (List.foldl Hull.dedupStep (keys, verts, remap) l).1.toFinset =
        keys.toFinset ∪ (l.map Hull.quantKey).toFinset := by
  induction l with
  | nil =>
    intro keys verts remap hnd hlen
    simpa using ⟨hnd, hlen⟩
  | cons v l ih =>
    intro keys verts remap hnd hlen
    by_cases hk : Hull.quantKey v ∈ keys
    · have hstep : Hull.dedupStep (keys, verts, remap) v =
          (keys, verts, remap ++ [keys.indexOf (Hull.quantKey v)]) := by
        simp [Hull.dedupStep, hk]
      rw [List.foldl_cons, hstep]
      obtain ⟨h1, h2, h3⟩ := ih keys verts (remap ++ [keys.indexOf (Hull.quantKey v)]) hnd hlen
      refine ⟨h1, h2, ?_⟩
      rw [h3]
      ext a
      simp only [Finset.mem_union, List.mem_toFinset, List.map_cons, List.toFinset_cons,
        Finset.mem_insert]
      constructor
      · tauto
      · rintro (h | rfl | h)
        · exact Or.inl h
        · exact Or.inl hk
        · exact Or.inr h
    · have hstep : Hull.dedupStep (keys, verts, remap) v =
          (keys ++ [Hull.quantKey v], verts ++ [v], remap ++ [keys.length]) := by
        simp [Hull.dedupStep, hk]
      rw [List.foldl_cons, hstep]
      have hnd2 : (keys ++ [Hull.quantKey v]).Nodup := by
        simp [List.nodup_append, hnd, hk]
      have hlen2 : (verts ++ [v]).length = (keys ++ [Hull.quantKey v]).length := by
        simp [hlen]
      obtain ⟨h1, h2, h3⟩ := ih (keys ++ [Hull.quantKey v]) (verts ++ [v])
        (remap ++ [keys.length]) hnd2 hlen2
      refine ⟨h1, h2, ?_⟩
      rw [h3]
      ext a
      simp only [Finset.mem_union, List.mem_toFinset, List.mem_append, List.mem_singleton,
        List.map_cons, List.toFinset_cons, Finset.mem_insert]
      tauto

/-- When the accumulator holds exactly k fixed increments and the fuel
admits them all, the catch-up loop performs exactly k internal steps and
drains the accumulator to zero. -/
theorem substepLoop_exact {σ : Type} (f : σ → σ) (dt : ℚ) (hdt : 0 < dt) :
    ∀ (k fuel : Nat), k ≤ fuel → ∀ s : σ,
      Stepping.substepLoop f dt fuel ((k : ℚ) * dt, s) = (0, f^[k] s) := by
  intro k
  induction k with
  | zero =>
    intro fuel _ s
    cases fuel with
    | zero => simp [Stepping.substepLoop]
    | succ n =>
      simp only [Nat.cast_zero, zero_mul, Stepping.substepLoop, Function.iterate_zero_apply]
      rw [if_neg (by linarith)]
  | succ k ih =>
    intro fuel hk s
    cases fuel with
    | zero => omega
    | succ n =>
      have hcond : dt ≤ ((k + 1 : Nat) : ℚ) * dt := by
        push_cast
        nlinarith [Nat.cast_nonneg (α := ℚ) k]
      have hsub : ((k + 1 : Nat) : ℚ) * dt - dt = (k : ℚ) * dt := by
        push_cast
        ring
      simp only [Stepping.substepLoop]
      rw [if_pos hcond, hsub, ih n (Nat.succ_le_succ_iff.mp hk) (f s),
        Function.iterate_succ_apply]

/-- A frame that asks for k fixed steps with k within maxSubSteps, entered
with an empty accumulator, performs exactly the k internal steps and
leaves the accumulator empty. -/
theorem stepCall_exact {σ : Type} (f : σ → σ) (dt : ℚ) (hdt : 0 < dt)
    (k maxSubSteps : Nat) (hk : k ≤ maxSubSteps) (s : σ) :
    Stepping.stepCall f dt ((k : ℚ) * dt) maxSubSteps (0, s) = (0, f^[k] s) := by
  unfold Stepping.stepCall
  rw [zero_add, substepLoop_exact f dt hdt k maxSubSteps hk s]
  simp [Stepping.jsMod]

/-- Any sequence of frames whose step requests stay within maxSubSteps
performs exactly the total number of requested fixed steps, in order. -/
theorem runCalls_exact {σ : Type} (f : σ → σ) (dt : ℚ) (hdt : 0 < dt)
    (maxSubSteps : Nat) (ks : List Nat) (hks : ∀ k ∈ ks, k ≤ maxSubSteps) (s : σ) :
    Stepping.runCalls f dt maxSubSteps ks (0, s) = (0, f^[ks.sum] s) := by
  induction ks generalizing s with
  | nil => simp [Stepping.runCalls]
  | cons k ks ih =>
    have hk : k ≤ maxSubSteps := hks k (List.mem_cons_self k ks)
    have hks2 : ∀ j ∈ ks, j ≤ maxSubSteps := fun j hj => hks j (List.mem_cons_of_mem k hj)
    show Stepping.runCalls f dt maxSubSteps ks
        (Stepping.stepCall f dt ((k : ℚ) * dt) maxSubSteps (0, s)) = _
    rw [stepCall_exact f dt hdt k maxSubSteps hk s, ih hks2 (f^[k] s), List.sum_cons,
      add_comm k ks.sum, Function.iterate_add_apply]

/-- C2: from the same initial world state, with a fixed gravity vector and
no input changes, any two ways of grouping the same total number N of
fixed physics steps into separate step calls across frame boundaries
produce the same final world state (hence the same position and
orientation of every dynamic body); each frame's request must fit within
the maxSubSteps bound so that all its fixed steps actually execute. The
final state is the N-fold iterate of the internal step function, for any
deterministic internal step f. -/
theorem stepping_batch_invariant {σ : Type} (f : σ → σ) (dt : ℚ) (maxSubSteps : Nat)
    (ks₁ ks₂ : List Nat) (s : σ) (hdt : 0 < dt)
    (h1 : ∀ k ∈ ks₁, k ≤ maxSubSteps) (h2 : ∀ k ∈ ks₂, k ≤ maxSubSteps)
    (hsum : ks₁.sum = ks₂.sum) :
    Stepping.runCalls f dt maxSubSteps ks₁ (0, s) =
      Stepping.runCalls f dt maxSubSteps ks₂ (0, s) ∧
    (Stepping.runCalls f dt maxSubSteps ks₁ (0, s)).2 = f^[ks₁.sum] s := by
  rw [runCalls_exact f dt hdt maxSubSteps ks₁ h1 s,
    runCalls_exact f dt hdt maxSubSteps ks₂ h2 s, hsum]
  exact ⟨rfl, rfl⟩

/-- Witness for the batching theorem: a single free body under the box
variant's gravity, three fixed steps grouped as two frames of 2 and 1
steps versus one frame of 3 steps, with maxSubSteps 3. -/
theorem stepping_batch_invariant_witness :
    Stepping.runCalls (Stepping.freeBodyStep BoxVar.initGravity (1/60) 1) (1/60) 3 [2, 1]
        (0, ⟨⟨0, 0, 0⟩, ⟨0, 0, 0⟩⟩) =
      Stepping.runCalls (Stepping.freeBodyStep BoxVar.initGravity (1/60) 1) (1/60) 3 [3]
        (0, ⟨⟨0, 0, 0⟩, ⟨0, 0, 0⟩⟩) ∧
    (Stepping.runCalls (Stepping.freeBodyStep BoxVar.initGravity (1/60) 1) (1/60) 3 [2, 1]
        (0, ⟨⟨0, 0, 0⟩, ⟨0, 0, 0⟩⟩)).2 =
      (Stepping.freeBodyStep BoxVar.initGravity (1/60) 1)^[[2, 1].sum]
        ⟨⟨0, 0, 0⟩, ⟨0, 0, 0⟩⟩ :=
  stepping_batch_invariant (Stepping.freeBodyStep BoxVar.initGravity (1/60) 1) (1/60) 3
    [2, 1] [3] ⟨⟨0, 0, 0⟩, ⟨0, 0, 0⟩⟩ (by with_unfolding_all decide)
    (by decide) (by decide) (by decide)

/-- C3: invoking a gravity input adapter twice leaves the world gravity
equal to the value determined by the second reading alone: for all three
handlers the two-call composite equals the single call with the second
reading, and for the orbit and well handlers the result does not depend on
the previous gravity value at all (the box handler passes the previous
z component through, which stays at the initialization value 0; see the
theorem for claim C10). -/
theorem gravity_overwrite_second_reading_wins :
    (∀ (g : Vec3) (r₁ r₂ : Reading),
      Orbit.enableMotionHandler (Orbit.enableMotionHandler g r₁) r₂ =
        Orbit.enableMotionHandler g r₂) ∧
    (∀ (g : Vec3) (r₁ r₂ : Reading),
      BoxVar.enableMotionHandler (BoxVar.enableMotionHandler g r₁) r₂ =
        BoxVar.enableMotionHandler g r₂) ∧
    (∀ (g : Vec3) (r₁ r₂ : Reading),
      Well.handleDeviceOrientation true (Well.handleDeviceOrientation true g r₁) r₂ =
        Well.handleDeviceOrientation true g r₂) ∧
    (∀ (g g' : Vec3) (r : Reading),
      Orbit.enableMotionHandler g r = Orbit.enableMotionHandler g' r) ∧
    (∀ (g g' : Vec3) (r : Reading),
      Well.handleDeviceOrientation true g r = Well.handleDeviceOrientation true g' r) :=
  ⟨fun _ _ _ => rfl, fun _ _ _ => rfl, fun _ _ _ => rfl,
   fun _ _ _ => rfl, fun _ _ _ => rfl⟩

/-- C4, counterexample: the vertical gravity component produced by the
orbit variant's tilt handler is not one fixed strictly negative constant:
at beta = -45 it is +80 (positive), and at beta = 0 it is 0. -/
theorem orbit_vertical_gravity_counterexample :
    (Orbit.enableMotionHandler Orbit.initGravity ⟨some (-45), some 0⟩).y = 80 ∧
    (0 : ℚ) < 80 ∧
    (Orbit.enableMotionHandler Orbit.initGravity ⟨some 0, some 0⟩).y = 0 := by
  with_unfolding_all decide

/-- C4, amended: in the well variant the handler holds the vertical
component of gravity at the fixed strictly negative constant -15 for every
tilt reading; the tilt only modulates the x and z components. -/
theorem well_vertical_gravity_constant :
    ∀ (g : Vec3) (r : Reading),
      (Well.handleDeviceOrientation true g r).y = -15 ∧ (-15 : ℚ) < 0 :=
  fun _ _ => ⟨rfl, by norm_num⟩

/-- C5, counterexample: the orbit variant's tilt handler does not clamp
the tilt axes: a raw gamma of 90 (magnitude beyond maxTilt = 45) yields an
x gravity component of 160, exceeding the configured scale 80. -/
theorem orbit_tilt_unclamped_counterexample :
    (Orbit.enableMotionHandler Orbit.initGravity ⟨some 0, some 90⟩).x = 160 ∧
    Orbit.strength < 160 := by
  with_unfolding_all decide

/-- C5, amended: in the well variant each tilt axis is clamped to plus or
minus 45 before being divided by 45, so the normalized factor always lies
in the interval from -1 to 1 and the magnitude of each horizontal gravity
component never exceeds CONFIG.gravityScale, for every raw reading. -/
theorem well_tilt_clamped_bounds :
    (∀ v : ℚ, -1 ≤ Well.clampTilt v / 45 ∧ Well.clampTilt v / 45 ≤ 1) ∧
    (∀ (g : Vec3) (r : Reading),
      |(Well.handleDeviceOrientation true g r).x| ≤ Well.gravityScale ∧
      |(Well.handleDeviceOrientation true g r).z| ≤ Well.gravityScale) := by
  have hb : ∀ v : ℚ, -45 ≤ Well.clampTilt v ∧ Well.clampTilt v ≤ 45 := by
    intro v
    refine ⟨le_max_left _ _, max_le (by norm_num) (min_le_left _ _)⟩
  have hr : ∀ v : ℚ, -1 ≤ Well.clampTilt v / 45 ∧ Well.clampTilt v / 45 ≤ 1 := by
    intro v
    obtain ⟨h1, h2⟩ := hb v
    constructor
    · rw [le_div_iff₀ (by norm_num : (0:ℚ) < 45)]
      linarith
    · rw [div_le_one (by norm_num : (0:ℚ) < 45)]
      linarith
  refine ⟨hr, ?_⟩
  intro g r
  obtain ⟨hx1, hx2⟩ := hr r.gammaVal
  obtain ⟨hz1, hz2⟩ := hr r.betaVal
  constructor
  · show |Well.clampTilt r.gammaVal / 45 * Well.gravityScale| ≤ Well.gravityScale
    rw [abs_le]
    unfold Well.gravityScale
    constructor <;> linarith
  · show |Well.clampTilt r.betaVal / 45 * Well.gravityScale| ≤ Well.gravityScale
    rw [abs_le]
    unfold Well.gravityScale
    constructor <;> linarith

/-- C6: in the well variant, resizing the viewport recomputes the screen
bounds but leaves every wall body at the placement computed from the old
aspect ratio: after onWindowResize the walls still equal the walls built
from the pre-resize bounds and differ from the walls that createWalls
would build from the fresh bounds (whenever the aspect actually changed
and the half-fov tangent is positive); so the boundary bodies do remain
at their stale pre-resize placements, contrary to the claim. -/
theorem well_resize_walls_stale (t a₀ a₁ : ℚ) (ht : 0 < t) (hne : a₀ ≠ a₁) :
    (Well.onWindowResize t a₁ (Well.initBoundaries t a₀)).walls =
      Well.createWalls (Well.calculateScreenBounds t a₀) ∧
    (Well.onWindowResize t a₁ (Well.initBoundaries t a₀)).walls ≠
      Well.createWalls (Well.calculateScreenBounds t a₁) ∧
    (Well.onWindowResize t a₁ (Well.initBoundaries t a₀)).screenBounds =
      Well.calculateScreenBounds t a₁ := by
  refine ⟨rfl, ?_, rfl⟩
  intro h
  apply hne
  have h4 := congrArg
    (fun l => ((l.getD 3 ⟨⟨0, 0, 0⟩, ⟨0, 0, 0⟩⟩).pos.x)) h
  simp only [Well.onWindowResize, Well.initBoundaries, Well.createWalls,
    Well.calculateScreenBounds, Well.cameraHeight, Well.wallThickness, Well.wallHeight,
    List.getD, List.get?_cons_succ, List.get?_cons_zero, Option.getD_some] at h4
  have h5 : t * a₀ = t * a₁ := by linarith
  exact mul_left_cancel₀ (ne_of_gt ht) h5

/-- Witness for the resize staleness theorem: half-fov tangent 1, initial
aspect 2, resized aspect 1. -/
theorem well_resize_walls_stale_witness :
    (Well.onWindowResize 1 1 (Well.initBoundaries 1 2)).walls =
      Well.createWalls (Well.calculateScreenBounds 1 2) ∧
    (Well.onWindowResize 1 1 (Well.initBoundaries 1 2)).walls ≠
      Well.createWalls (Well.calculateScreenBounds 1 1) ∧
    (Well.onWindowResize 1 1 (Well.initBoundaries 1 2)).screenBounds =
      Well.calculateScreenBounds 1 1 :=
  well_resize_walls_stale 1 2 1 (by with_unfolding_all decide)
    (by with_unfolding_all decide)

/-- C7: for every triangulated mesh (with or without an index buffer) the
built hull's vertex count equals the number of distinct quantized
positions, and every face kept by the builder references three pairwise
distinct vertex indices; degenerate triangles are dropped silently rather
than raising an error. -/
theorem hull_dedup_faces (positions : List Vec3) (indices : Option (List Nat)) :
    (Hull.buildHull positions indices).vertices.length =
      ((positions.map Hull.quantKey).dedup).length ∧
    ∀ face ∈ (Hull.buildHull positions indices).faces,
      face.1 ≠ face.2.1 ∧ face.2.1 ≠ face.2.2 ∧ face.1 ≠ face.2.2 := by
  constructor
  · obtain ⟨h1, h2, h3⟩ := dedupStep_foldl_invariant positions [] [] []
      List.nodup_nil rfl
    show (Hull.dedupPass positions).2.1.length = _
    unfold Hull.dedupPass
    rw [h2]
    have hcard : (List.foldl Hull.dedupStep ([], [], []) positions).1.toFinset.card =
        (List.foldl Hull.dedupStep ([], [], []) positions).1.length :=
      List.toFinset_card_of_nodup h1
    rw [← hcard, h3]
    simp [List.card_toFinset]
  · intro face hface
    have h := (List.mem_filter.mp hface).2
    simp only [Bool.and_eq_true, bne_iff_ne, ne_eq] at h
    tauto

/-- Witness for the hull theorem at the concrete demo mesh: six distinct
quantized positions survive, and the first kept face (0,1,2) has pairwise
distinct corners. -/
theorem hull_dedup_faces_witness :
    (Hull.buildHull Hull.demoPositions none).vertices.length =
      ((Hull.demoPositions.map Hull.quantKey).dedup).length ∧
    ((0, 1, 2) : Nat × Nat × Nat).1 ≠ ((0, 1, 2) : Nat × Nat × Nat).2.1 ∧
    ((0, 1, 2) : Nat × Nat × Nat).2.1 ≠ ((0, 1, 2) : Nat × Nat × Nat).2.2 ∧
    ((0, 1, 2) : Nat × Nat × Nat).1 ≠ ((0, 1, 2) : Nat × Nat × Nat).2.2 :=
  ⟨(hull_dedup_faces Hull.demoPositions none).1,
   (hull_dedup_faces Hull.demoPositions none).2 (0, 1, 2) (by with_unfolding_all decide)⟩

/-- C8: in the orbit variant's per-frame loop, after the step and the pose
copy, the z velocity is decreased by exactly 1 when the z position exceeds
20, increased by exactly 1 when it is below -20, and left unchanged
otherwise; the position, the other velocity components and the quaternion
are untouched and the mesh receives the body pose verbatim. Moreover no
wall constrains motion toward +Z: the z components of the five wall plane
normals are 0, 0, 0, 0 and 1 (the back wall), none negative, so the nudge
is the only containment mechanism along +Z. -/
theorem orbit_z_nudge :
    (∀ (m : Orbit.MeshPose) (b : Orbit.HeartState), 20 < b.position.z →
      (Orbit.syncAndNudge m b).2.velocity.z = b.velocity.z - 1) ∧
    (∀ (m : Orbit.MeshPose) (b : Orbit.HeartState), b.position.z < -20 →
      (Orbit.syncAndNudge m b).2.velocity.z = b.velocity.z + 1) ∧
    (∀ (m : Orbit.MeshPose) (b : Orbit.HeartState),
      -20 ≤ b.position.z → b.position.z ≤ 20 →
      (Orbit.syncAndNudge m b).2.velocity = b.velocity) ∧
    (∀ (m : Orbit.MeshPose) (b : Orbit.HeartState),
      (Orbit.syncAndNudge m b).2.position = b.position ∧
      (Orbit.syncAndNudge m b).2.velocity.x = b.velocity.x ∧
      (Orbit.syncAndNudge m b).2.velocity.y = b.velocity.y ∧
      (Orbit.syncAndNudge m b).2.quaternion = b.quaternion ∧
      (Orbit.syncAndNudge m b).1 = ⟨b.position, b.quaternion⟩) ∧
    Orbit.wallQuaternions.map (fun q => (planeNormal q).z) = [0, 0, 0, 0, 1] := by
  refine ⟨?_, ?_, ?_, ?_, ?_⟩
  · intro m b h
    show (if b.position.z < -20 then
        (if 20 < b.position.z then b.velocity.z - 1 else b.velocity.z) + 1
      else (if 20 < b.position.z then b.velocity.z - 1 else b.velocity.z)) =
        b.velocity.z - 1
    rw [if_pos h, if_neg (by linarith)]
  · intro m b h
    show (if b.position.z < -20 then
        (if 20 < b.position.z then b.velocity.z - 1 else b.velocity.z) + 1
      else (if 20 < b.position.z then b.velocity.z - 1 else b.velocity.z)) =
        b.velocity.z + 1
    rw [if_pos h, if_neg (by linarith)]
  · intro m b h1 h2
    have hv : (Orbit.syncAndNudge m b).2.velocity =
        (⟨b.velocity.x, b.velocity.y, b.velocity.z⟩ : Vec3) := by
      show (⟨b.velocity.x, b.velocity.y,
        if b.position.z < -20 then
          (if 20 < b.position.z then b.velocity.z - 1 else b.velocity.z) + 1
        else (if 20 < b.position.z then b.velocity.z - 1 else b.velocity.z)⟩ : Vec3) = _
      rw [if_neg (by linarith), if_neg (by linarith)]
    exact hv
  · intro m b
    exact ⟨rfl, rfl, rfl, rfl, rfl⟩
  · simp only [Orbit.wallQuaternions, List.map_cons, List.map_nil,
      planeNormal_euler_y, planeNormal_euler_x]
    simp [Real.cos_pi_div_two]

/-- Witness for the nudge theorem: at z position 25 with z velocity 3 the
loop leaves z velocity 3 - 1; at z position -25 with z velocity 0 it
leaves 0 + 1; at z position 0 the velocity is unchanged. -/
theorem orbit_z_nudge_witness :
    (Orbit.syncAndNudge ⟨⟨0, 0, 0⟩, ⟨0, 0, 0, 1⟩⟩
        ⟨⟨0, 0, 25⟩, ⟨0, 0, 3⟩, ⟨0, 0, 0, 1⟩⟩).2.velocity.z = 3 - 1 ∧
    (Orbit.syncAndNudge ⟨⟨0, 0, 0⟩, ⟨0, 0, 0, 1⟩⟩
        ⟨⟨0, 0, -25⟩, ⟨0, 0, 0⟩, ⟨0, 0, 0, 1⟩⟩).2.velocity.z = 0 + 1 ∧
    (Orbit.syncAndNudge ⟨⟨0, 0, 0⟩, ⟨0, 0, 0, 1⟩⟩
        ⟨⟨0, 0, 0⟩, ⟨5, 6, 7⟩, ⟨0, 0, 0, 1⟩⟩).2.velocity = ⟨5, 6, 7⟩ :=
  ⟨orbit_z_nudge.1 ⟨⟨0, 0, 0⟩, ⟨0, 0, 0, 1⟩⟩ ⟨⟨0, 0, 25⟩, ⟨0, 0, 3⟩, ⟨0, 0, 0, 1⟩⟩
      (by with_unfolding_all decide),
   orbit_z_nudge.2.1 ⟨⟨0, 0, 0⟩, ⟨0, 0, 0, 1⟩⟩ ⟨⟨0, 0, -25⟩, ⟨0, 0, 0⟩, ⟨0, 0, 0, 1⟩⟩
      (by with_unfolding_all decide),
   orbit_z_nudge.2.2.1 ⟨⟨0, 0, 0⟩, ⟨0, 0, 0, 1⟩⟩ ⟨⟨0, 0, 0⟩, ⟨5, 6, 7⟩, ⟨0, 0, 0, 1⟩⟩
      (by with_unfolding_all decide) (by with_unfolding_all decide)⟩

/-- C9: in the well variant a deviceorientation event that arrives before
the heart body exists leaves the world gravity entirely unchanged. -/
theorem well_orientation_before_body_noop :
    ∀ (g : Vec3) (r : Reading), Well.handleDeviceOrientation false g r = g :=
  fun _ _ => rfl

/-- C10: the tilt handler of the box variant only writes the x and y
gravity components: the z component always passes through unchanged, and
starting from the initialization world.gravity.set(0, -20, 0) it stays 0
after any sequence of readings. -/
theorem box_tilt_gravity_xy_only :
    (∀ (g : Vec3) (r : Reading), (BoxVar.enableMotionHandler g r).z = g.z) ∧
    (∀ rs : List Reading, (rs.foldl BoxVar.enableMotionHandler BoxVar.initGravity).z = 0) := by
  have hz : ∀ (g : Vec3) (rs : List Reading),
      (rs.foldl BoxVar.enableMotionHandler g).z = g.z := by
    intro g rs
    induction rs generalizing g with
    | nil => rfl
    | cons r rs ih => exact ih (BoxVar.enableMotionHandler g r)
  exact ⟨fun _ _ => rfl, fun rs => hz BoxVar.initGravity rs⟩
